import Mathlib

/-!
Verification development for the VBBinaryLensing binary-lens magnification
library, as documented in examples/cpp_examples/instructions.cpp and the
accompanying design specification.  The library core (root solving, contour
integration, adaptive dispatch, annulus decomposition) is modelled shallowly:
pure functions over rational numbers stand in for the double-precision
routines, and behaviour that the repository documents only through its
specification is introduced by definitions whose doc comments start with
"Modelled from the spec:".  Concrete numeric outputs documented as code
comments in instructions.cpp (for example "Output should be 18.28....") are
captured as digit-prefix intervals.
-/

set_option autoImplicit false

namespace VBBL

/-- A documented output of the form "Output should be 18.28...." constrains the
printed value `v` to the half-open interval `[lo, lo + 10^-p)` where `lo` holds
the `p` documented decimal places. -/
def docInterval (lo : ℚ) (p : ℕ) (v : ℚ) : Prop :=
  lo ≤ v ∧ v < lo + 1 / 10 ^ p

instance (lo : ℚ) (p : ℕ) (v : ℚ) : Decidable (docInterval lo p v) := by
  unfold docInterval
  infer_instance

/-- Default absolute accuracy of the library: "By default, the accuracy is
1.e-2" (instructions.cpp, accuracy control section). -/
def defaultTol : ℚ := 1 / 100

/-- Documented BinaryMag2 output at the default tolerance 1e-2 for the
scenario s=0.8, q=0.1, y1=0.01, y2=0.01, Rs=0.01: "Output should be
18.28....". -/
def BinaryMag2_doc_tol_1e2 : ℚ := 18.28

/-- Documented BinaryMag2 output at tolerance 1e-4 for the same scenario:
"Output should be 18.2833....". -/
def BinaryMag2_doc_tol_1e4 : ℚ := 18.2833

/-- Documented BinaryMag2 output with linear limb darkening a1=0.51 at the
default tolerance for the same scenario: "Output should be 18.27.....". -/
def BinaryMag2_doc_LD_linear : ℚ := 18.27

/-- Documented BinaryMag2 output with the built-in square-root limb-darkening
law, a1=0.51, a2=0.3, at tolerance 1e-4: "Output should be 18.2712.....". -/
def BinaryMag2_doc_LD_sqrt : ℚ := 18.2712

/-- Documented BinaryMag2 output with the user-defined profile MyLDprofile on
a 1000-point grid, u1=0.51, u2=0.3, at tolerance 1e-4: "Output should be
18.2712.....". -/
def BinaryMag2_doc_LD_user : ℚ := 18.2712

/-- Modelled from the spec: the absolute-accuracy branch of the tolerance
stopping test (ToleranceContract).  The running error estimate meets the
absolute goal when it is at most absTol; absTol = 0 disables this branch.
The library source implementing the stopping loop is not in the repository
snapshot; instructions.cpp documents "The result will be Mag +- VBBL.Tol
(absolute accuracy)". -/
def absGoal (absTol err : ℚ) : Prop :=
  0 < absTol ∧ err ≤ absTol

instance (absTol err : ℚ) : Decidable (absGoal absTol err) := by
  unfold absGoal
  infer_instance

/-- Modelled from the spec: the relative-precision branch of the tolerance
stopping test.  The goal is met when the error estimate is at most
relTol * |magnification|; relTol = 0 disables this branch, matching
instructions.cpp: "If you do not want to use relative precision anymore, just
set VBBL.RelTol = 0". -/
def relGoal (relTol err mag : ℚ) : Prop :=
  0 < relTol ∧ err ≤ relTol * |mag|

instance (relTol err mag : ℚ) : Decidable (relGoal relTol err mag) := by
  unfold relGoal
  infer_instance

/-- Modelled from the spec: the combined stopping test.  "the calculation
stops when the first of the two goals is reached (either absolute accuracy or
relative precision)" (instructions.cpp). -/
def stopGoal (absTol relTol err mag : ℚ) : Prop :=
  absGoal absTol err ∨ relGoal relTol err mag

instance (absTol relTol err mag : ℚ) : Decidable (stopGoal absTol relTol err mag) := by
  unfold stopGoal
  infer_instance

/-- Modelled from the spec: the refinement loop of an evaluation.  The
sequence ests enumerates successive (magnification, error estimate) pairs;
the loop returns the index of the first refinement step at which the stopping
test succeeds, scanning from step k with the given fuel. -/
def stopIndexAux (absTol relTol : ℚ) (ests : ℕ → ℚ × ℚ) : ℕ → ℕ → Option ℕ
  | 0, _ => none
  | fuel + 1, k =>
    if stopGoal absTol relTol (ests k).2 (ests k).1 then some k
    else stopIndexAux absTol relTol ests fuel (k + 1)

/-- Modelled from the spec: the index of the first refinement step meeting
the stopping test, among the first fuel steps. -/
def stopIndex (absTol relTol : ℚ) (ests : ℕ → ℚ × ℚ) (fuel : ℕ) : Option ℕ :=
  stopIndexAux absTol relTol ests fuel 0

/-- Events that an adaptive evaluation may perform, in order.  Modelled from
the spec (AdaptiveDispatcher) and the implementation notes of
instructions.cpp: "BinaryMag2 first calculates the point-source magnification
through BinaryMag0.  Then it evaluates the quadrupole correction.  If it is
too high, it goes for the full computation." -/
inductive MagEvent
  | pointSourceEval
  | quadrupoleEval
  | contourIntegration
  deriving DecidableEq

/-- Modelled from the spec: the adaptive dispatch of BinaryMag2, instrumented
with the ordered list of events it performs.  ps is the point-source
magnification, quadCorr the quadrupole correction, quadErr its error bound;
when the error bound meets the tolerance goal the quadrupole-corrected
point-source estimate is returned with no contour integration, otherwise the
full-computation result full (performing fullEvents, which record its contour
integrations) is returned. -/
def BinaryMag2_run (ps quadCorr quadErr tol full : ℚ) (fullEvents : List MagEvent) :
    ℚ × List MagEvent :=
  if quadErr ≤ tol then
    (ps + quadCorr, [MagEvent.pointSourceEval, MagEvent.quadrupoleEval])
  else
    (full, [MagEvent.pointSourceEval, MagEvent.quadrupoleEval] ++ fullEvents)

/-- A root of the degree-5 binary-lens polynomial: complex position, the
true-image flag assigned by residual back-substitution, and the local
Jacobian determinant.  Modelled from the spec (Root data model). -/
structure LensRoot where
  re : ℚ
  im : ℚ
  isTrue : Bool
  jac : ℚ
  deriving DecidableEq

/-- Number of roots classified as true images. -/
def trueImageCount (rs : List LensRoot) : ℕ :=
  (rs.filter (fun r => r.isTrue)).length

/-- Outcome of the root-count check: either an accepted image count or a
degenerate/ambiguous classification.  Modelled from the spec
(DegenerateRootSet error taxonomy). -/
inductive RootClassification
  | images (n : ℕ)
  | degenerate (n : ℕ)
  deriving DecidableEq

/-- Modelled from the spec: "if fewer than 3 or more than 5 true roots are
found (only 3 or 5 images are physically possible for a two-point-mass lens),
the solver reports a degenerate/ambiguous classification". -/
def classifyRootCount (n : ℕ) : RootClassification :=
  if n = 3 ∨ n = 5 then RootClassification.images n
  else RootClassification.degenerate n

/-- The classification the root solver reports for a list of solved roots. -/
def RootSolver_classify (rs : List LensRoot) : RootClassification :=
  classifyRootCount (trueImageCount rs)

/-- Modelled from the spec (PointSourceEstimator): point-source magnification
is the unsigned sum of 1/|Jacobian| over the true images, here given by their
Jacobian determinants. -/
def pointSourceMag (jacs : List ℚ) : ℚ :=
  (jacs.map (fun J => 1 / |J|)).sum

/-- BinaryMag0, the point-source binary magnification entry point of the
library (instructions.cpp), modelled from the spec as the point-source
estimator value. -/
def BinaryMag0 (jacs : List ℚ) : ℚ :=
  pointSourceMag jacs

/-- Modelled from the spec: the error bound of the second-order (quadrupole)
finite-size correction scales with the square of the source radius rho. -/
def quadErrorBound (e rho : ℚ) : ℚ :=
  e * rho ^ 2

/-- Modelled from the spec: the adaptive entry point BinaryMag2 for a source
of radius rho.  jacs are the Jacobians of the true images at the source
center, c the quadrupole coefficient, e the error-bound coefficient.  When
the quadrupole error bound meets the tolerance, the fast path returns the
quadrupole-corrected point-source estimate and populates no annuli (second
component 0); otherwise the full annulus computation fullPath runs.  The
result pairs the magnification with the annulus count used. -/
def BinaryMag2_adaptive (jacs : List ℚ) (c e tol rho : ℚ) (fullPath : ℚ → ℚ × ℕ) :
    ℚ × ℕ :=
  if quadErrorBound e rho ≤ tol then (pointSourceMag jacs + c * rho ^ 2, 0)
  else fullPath rho

/-- Linear limb-darkening weight I(mu) = 1 - a1*(1 - mu) (instructions.cpp,
limb darkening section). -/
def ldLinearWeight (a1 mu : ℚ) : ℚ :=
  1 - a1 * (1 - mu)

/-- Modelled from the spec (AnnulusIntegrator): combination of the shared
uniform-source annulus sub-results into a limb-darkened magnification.  Each
annulus is a pair (mu, uniform-source contribution); the limb-darkening
coefficient enters only through the weight applied to each annulus. -/
def combineDark (annuli : List (ℚ × ℚ)) (a1 : ℚ) : ℚ :=
  (annuli.map (fun p => ldLinearWeight a1 p.1 * p.2)).sum

/-- Modelled from the spec: one full limb-darkened evaluation
(BinaryMagDark-style) from the shared annulus sub-results; the second
component counts the expensive uniform-source contour integrations
performed, one per annulus. -/
def BinaryMagDark (annuli : List (ℚ × ℚ)) (a1 : ℚ) : ℚ × ℕ :=
  (combineDark annuli a1, annuli.length)

/-- Modelled from the spec: BinaryMagMultiDark, the batched evaluation over a
list of limb-darkening coefficients.  The uniform-source annulus sub-results
are computed once and shared; only the cheap weighted combination is repeated
per coefficient.  The second component again counts the contour
integrations performed by the whole batch. -/
def BinaryMagMultiDark (annuli : List (ℚ × ℚ)) (a1List : List ℚ) : List ℚ × ℕ :=
  (a1List.map (combineDark annuli), annuli.length)

/-- The fields of a VBBinaryLensing instance that the documented magnification
calls read or write (instructions.cpp): the configuration fields Tol, RelTol,
a1, a2, astrometry, minannuli set by the user, and the per-call output fields
nannuli, NPS, astrox1, astrox2 populated by the last evaluation. -/
structure VBBLState where
  Tol : ℚ
  RelTol : ℚ
  a1 : ℚ
  a2 : ℚ
  astrometry : Bool
  minannuli : ℕ
  nannuli : ℕ
  NPS : ℕ
  astrox1 : ℚ
  astrox2 : ℚ
  deriving DecidableEq

/-- A magnification query: separation, mass ratio, source center and source
radius, the explicit parameters of BinaryMag2. -/
structure MagQuery where
  s : ℚ
  q : ℚ
  y1 : ℚ
  y2 : ℚ
  rho : ℚ
  deriving DecidableEq

/-- The read-only configuration an evaluation depends on: tolerances,
limb-darkening coefficients and minimum annulus count.  The astrometry flag
is excluded: it only controls whether the centroid output fields are
populated, not the magnification (instructions.cpp, astrometry section). -/
structure MagConfig where
  Tol : ℚ
  RelTol : ℚ
  a1 : ℚ
  a2 : ℚ
  minannuli : ℕ
  deriving DecidableEq

/-- The configuration part of an instance state. -/
def configOf (st : VBBLState) : MagConfig :=
  ⟨st.Tol, st.RelTol, st.a1, st.a2, st.minannuli⟩

/-- The outputs of one core evaluation: magnification, annuli and point
counts, and the image centroid. -/
structure MagOutput where
  mag : ℚ
  nannuli : ℕ
  NPS : ℕ
  cx1 : ℚ
  cx2 : ℚ
  deriving DecidableEq

/-- Modelled from the spec: a BinaryMag2 call on a VBBinaryLensing instance.
The core of the library (absent from the repository snapshot) is abstracted
as any function of the read-only configuration and the query; the call
returns its magnification and writes only the per-call output fields of the
instance, storing the centroid in astrox1/astrox2 exactly when the
astrometry flag is set. -/
def BinaryMag2_call (core : MagConfig → MagQuery → MagOutput)
    (st : VBBLState) (inp : MagQuery) : ℚ × VBBLState :=
  let out := core (configOf st) inp
  (out.mag,
    { st with
      nannuli := out.nannuli
      NPS := out.NPS
      astrox1 := if st.astrometry then out.cx1 else st.astrox1
      astrox2 := if st.astrometry then out.cx2 else st.astrox2 })

/-- Documented accuracy of the astrometric centroid: "The accuracy in
astrometry is given by VBBL.Tol*20*Rs" (instructions.cpp). -/
def astroAccuracy (Tol Rs : ℚ) : ℚ :=
  Tol * 20 * Rs

/-- The user-defined limb-darkening profile of instructions.cpp, a square-root
law with global parameters u1, u2:
costh = sqrt(1 - r*r); return 1 - u1*(1 - costh) - u2*(1 - sqrt(costh)). -/
noncomputable def MyLDprofile (u1 u2 r : ℝ) : ℝ :=
  1 - u1 * (1 - Real.sqrt (1 - r * r)) - u2 * (1 - Real.sqrt (Real.sqrt (1 - r * r)))

/-- The built-in square-root limb-darkening law of the library:
I(mu) = I(0)*(1 - a1*(1 - mu) - a2*(1 - sqrt(mu))) (instructions.cpp). -/
noncomputable def LDsquareroot (a1 a2 mu : ℝ) : ℝ :=
  1 - a1 * (1 - mu) - a2 * (1 - Real.sqrt mu)

/-- mu as a function of the fractional source radius r:
mu = sqrt(1 - r^2) (instructions.cpp, limb darkening section). -/
noncomputable def muOf (r : ℝ) : ℝ :=
  Real.sqrt (1 - r * r)

/-- Modelled from the spec: SetLDprofile with a user function pre-calculates
the limb darkening law on a fixed-size grid of n points; entry i samples the
profile at fractional radius i/n. -/
noncomputable def ldGrid (f : ℝ → ℝ) (n : ℕ) : ℕ → ℝ :=
  fun i => f ((i : ℝ) / (n : ℝ))

/-- The instance configuration of the quick-start example of
instructions.cpp: default tolerance, no relative goal, uniform source,
astrometry requested. -/
def exampleState : VBBLState :=
  ⟨1 / 100, 0, 0, 0, true, 1, 0, 0, 0, 0⟩

/-- The quick-start query of instructions.cpp:
s=0.8, q=0.1, y1=0.01, y2=0.01, Rs=0.01. -/
def exampleQuery : MagQuery :=
  ⟨8 / 10, 1 / 10, 1 / 100, 1 / 100, 1 / 100⟩

/-- A concrete stand-in for the library core used to instantiate theorems
about instance-state handling at specific values. -/
def exampleCore : MagConfig → MagQuery → MagOutput :=
  fun _ _ => ⟨18, 1, 100, 2, 3⟩

/-- C1: for the configuration s=0.8, q=0.1, y1=0.01, y2=0.01, rho=0.01 with a
uniform source, any BinaryMag2 value matching the documented output at the
default tolerance 1e-2 ("18.28....") is within 0.01 of 18.28, and any value
matching the documented output at tolerance 1e-4 ("18.2833....") is within
1e-4 of 18.2833. -/
theorem C1_BinaryMag2_scenario (v w : ℚ)
    (hv : docInterval BinaryMag2_doc_tol_1e2 2 v)
    (hw : docInterval BinaryMag2_doc_tol_1e4 4 w) :
    |v - BinaryMag2_doc_tol_1e2| ≤ defaultTol ∧
    |w - BinaryMag2_doc_tol_1e4| ≤ 1 / 10 ^ 4 := by
  unfold docInterval at hv hw
  unfold BinaryMag2_doc_tol_1e2 BinaryMag2_doc_tol_1e4 defaultTol at *
  obtain ⟨hv1, hv2⟩ := hv
  obtain ⟨hw1, hw2⟩ := hw
  norm_num at hv2 hw2
  constructor
  · rw [abs_le]
    constructor <;> linarith
  · rw [abs_le]
    norm_num
    constructor <;> linarith

/-- Witness for C1 at the concrete values 18.283 and 18.28333. -/
theorem C1_BinaryMag2_scenario_witness :
    |(18.283 : ℚ) - BinaryMag2_doc_tol_1e2| ≤ defaultTol ∧
    |(18.28333 : ℚ) - BinaryMag2_doc_tol_1e4| ≤ 1 / 10 ^ 4 :=
  C1_BinaryMag2_scenario 18.283 18.28333
    (by unfold docInterval BinaryMag2_doc_tol_1e2; norm_num)
    (by unfold docInterval BinaryMag2_doc_tol_1e4; norm_num)

/-- The refinement loop returns the first index at or after its start at
which the stopping test succeeds. -/
theorem stopIndexAux_first (a r : ℚ) (ests : ℕ → ℚ × ℚ) :
    ∀ fuel k j, stopIndexAux a r ests fuel k = some j →
      k ≤ j ∧ stopGoal a r (ests j).2 (ests j).1 ∧
      ∀ i, k ≤ i → i < j → ¬stopGoal a r (ests i).2 (ests i).1 := by
  intro fuel
  induction fuel with
  | zero =>
    intro k j h
    simp [stopIndexAux] at h
  | succ n ih =>
    intro k j h
    unfold stopIndexAux at h
    by_cases hg : stopGoal a r (ests k).2 (ests k).1
    · rw [if_pos hg] at h
      obtain rfl : k = j := Option.some.inj h
      exact ⟨le_refl k, hg, fun i hki hik => absurd hki (not_le.mpr hik)⟩
    · rw [if_neg hg] at h
      obtain ⟨hkj, hgoal, hall⟩ := ih (k + 1) j h
      refine ⟨Nat.le_of_succ_le hkj, hgoal, fun i hki hij => ?_⟩
      rcases Nat.eq_or_lt_of_le hki with heq | hlt
      · rw [← heq]
        exact hg
      · exact hall i hlt hij

/-- C2: an evaluation stops successfully at the first refinement step whose
running error estimate meets the stopping test; the test succeeds exactly
when the error is within the absolute goal OR the relative goal (whichever is
reached), and setting absTol = 0 (resp. relTol = 0) disables the
corresponding branch of the test. -/
theorem C2_tolerance_stopping (a r : ℚ) (ests : ℕ → ℚ × ℚ) (fuel j : ℕ)
    (h : stopIndex a r ests fuel = some j) :
    (stopGoal a r (ests j).2 (ests j).1 ∧
      ∀ i, i < j → ¬stopGoal a r (ests i).2 (ests i).1) ∧
    (∀ e m, stopGoal a r e m ↔ absGoal a e ∨ relGoal r e m) ∧
    (∀ e m, stopGoal 0 r e m ↔ relGoal r e m) ∧
    (∀ e m, stopGoal a 0 e m ↔ absGoal a e) := by
  have hs := stopIndexAux_first a r ests fuel 0 j h
  refine ⟨⟨hs.2.1, fun i hij => hs.2.2 i (Nat.zero_le i) hij⟩,
    fun e m => Iff.rfl, ?_, ?_⟩
  · intro e m
    simp [stopGoal, absGoal, lt_irrefl]
  · intro e m
    simp [stopGoal, relGoal, lt_irrefl]

/-- Witness for C2: with absTol = 1/100, relTol = 0 and error estimates 1 then
1/200, the loop stops at step 1, where the stopping test indeed succeeds. -/
theorem C2_tolerance_stopping_witness :
    stopGoal (1 / 100) 0 (1 / 200) 10 :=
  (C2_tolerance_stopping (1 / 100) 0
    (fun k => ((10 : ℚ), if k = 0 then (1 : ℚ) else 1 / 200)) 2 1
    (by norm_num [stopIndex, stopIndexAux, stopGoal, absGoal, relGoal])).1.1

/-- C3: an adaptive BinaryMag2 evaluation performs the point-source and
quadrupole evaluations before any contour integration, and when the
quadrupole error bound already meets the tolerance goal the
quadrupole-corrected point-source estimate is returned with no contour
integration performed. -/
theorem C3_fast_path_before_contours (ps quadCorr quadErr tol full : ℚ)
    (fullEvents : List MagEvent) :
    (BinaryMag2_run ps quadCorr quadErr tol full fullEvents).2.take 2 =
      [MagEvent.pointSourceEval, MagEvent.quadrupoleEval] ∧
    (quadErr ≤ tol →
      (BinaryMag2_run ps quadCorr quadErr tol full fullEvents).1 = ps + quadCorr ∧
      MagEvent.contourIntegration ∉
        (BinaryMag2_run ps quadCorr quadErr tol full fullEvents).2) := by
  unfold BinaryMag2_run
  by_cases h : quadErr ≤ tol
  · rw [if_pos h]
    exact ⟨rfl, fun _ => ⟨rfl, by simp⟩⟩
  · rw [if_neg h]
    exact ⟨rfl, fun hc => absurd hc h⟩

/-- Witness for C3 at a concrete fast-path configuration. -/
theorem C3_fast_path_before_contours_witness :
    (BinaryMag2_run 18 (3 / 1000) (1 / 1000) (1 / 100) 0 []).1 = 18 + 3 / 1000 ∧
    MagEvent.contourIntegration ∉
      (BinaryMag2_run 18 (3 / 1000) (1 / 1000) (1 / 100) 0 []).2 :=
  (C3_fast_path_before_contours 18 (3 / 1000) (1 / 1000) (1 / 100) 0 []).2 (by norm_num)

/-- C4: the root solver never accepts an image count other than 3 or 5: any
accepted classification carries count 3 or 5, and any true-root count outside
{3,5} is reported as the degenerate classification (with the count exposed,
never silently returned as a valid image set). -/
theorem C4_image_count_3_or_5 (rs : List LensRoot) (n : ℕ) :
    (RootSolver_classify rs = RootClassification.images n → n = 3 ∨ n = 5) ∧
    (trueImageCount rs ≠ 3 ∧ trueImageCount rs ≠ 5 →
      RootSolver_classify rs = RootClassification.degenerate (trueImageCount rs)) := by
  constructor
  · intro h
    unfold RootSolver_classify classifyRootCount at h
    by_cases hc : trueImageCount rs = 3 ∨ trueImageCount rs = 5
    · rw [if_pos hc] at h
      injection h with h2
      rw [← h2]
      exact hc
    · rw [if_neg hc] at h
      exact absurd h (by simp)
  · intro hd
    unfold RootSolver_classify classifyRootCount
    rw [if_neg (by tauto)]

/-- Witness for C4: four true roots are classified as degenerate. -/
theorem C4_image_count_3_or_5_witness :
    RootSolver_classify (List.replicate 4 ⟨0, 0, true, 1⟩) =
      RootClassification.degenerate
        (trueImageCount (List.replicate 4 ⟨0, 0, true, 1⟩)) :=
  (C4_image_count_3_or_5 (List.replicate 4 ⟨0, 0, true, 1⟩) 0).2 ⟨by decide, by decide⟩

/-- C5: with rho = 0 the adaptive entry point bypasses the annulus integrator
entirely (the fast path fires, no annuli are populated) and returns exactly
the point-source magnification BinaryMag0; and for any positive tolerance
there is a radius bound below which the adaptive magnification stays within
the configured tolerance of BinaryMag0. -/
theorem C5_rho_zero_bypass (jacs : List ℚ) (c e tol : ℚ) (fullPath : ℚ → ℚ × ℕ) :
    (0 ≤ tol → BinaryMag2_adaptive jacs c e tol 0 fullPath = (BinaryMag0 jacs, 0)) ∧
    (0 < tol → ∃ δ : ℚ, 0 < δ ∧ ∀ rho : ℚ, |rho| ≤ δ →
      (BinaryMag2_adaptive jacs c e tol rho fullPath).2 = 0 ∧
      |(BinaryMag2_adaptive jacs c e tol rho fullPath).1 - BinaryMag0 jacs| ≤ tol) := by
  constructor
  · intro htol
    unfold BinaryMag2_adaptive quadErrorBound
    rw [if_pos (by nlinarith)]
    unfold BinaryMag0
    norm_num
  · intro htol
    refine ⟨min 1 (min (tol / (|e| + 1)) (tol / (|c| + 1))), ?_, ?_⟩
    · have he : 0 < tol / (|e| + 1) := by positivity
      have hc : 0 < tol / (|c| + 1) := by positivity
      simp only [lt_min_iff]
      exact ⟨one_pos, he, hc⟩
    · intro rho hrho
      have hr1 : |rho| ≤ 1 := le_trans hrho (min_le_left _ _)
      have hr2 : |rho| ≤ tol / (|e| + 1) :=
        le_trans hrho (le_trans (min_le_right _ _) (min_le_left _ _))
      have hr3 : |rho| ≤ tol / (|c| + 1) :=
        le_trans hrho (le_trans (min_le_right _ _) (min_le_right _ _))
      have habs : (0 : ℚ) ≤ |rho| := abs_nonneg rho
      have hsq : rho ^ 2 ≤ |rho| := by
        rw [← sq_abs]
        nlinarith [mul_le_mul_of_nonneg_left hr1 habs]
      have hsqnn : (0 : ℚ) ≤ rho ^ 2 := sq_nonneg rho
      have he1 : (0 : ℚ) < |e| + 1 := by positivity
      have hc1 : (0 : ℚ) < |c| + 1 := by positivity
      have hre : (|e| + 1) * |rho| ≤ tol := by
        rw [div_eq_mul_inv] at hr2
        calc (|e| + 1) * |rho| ≤ (|e| + 1) * (tol * (|e| + 1)⁻¹) := by
              exact mul_le_mul_of_nonneg_left hr2 (le_of_lt he1)
          _ = tol := by
              field_simp
      have hrc : (|c| + 1) * |rho| ≤ tol := by
        rw [div_eq_mul_inv] at hr3
        calc (|c| + 1) * |rho| ≤ (|c| + 1) * (tol * (|c| + 1)⁻¹) := by
              exact mul_le_mul_of_nonneg_left hr3 (le_of_lt hc1)
          _ = tol := by
              field_simp
      have hcond : quadErrorBound e rho ≤ tol := by
        unfold quadErrorBound
        have h1 : e * rho ^ 2 ≤ |e| * rho ^ 2 :=
          mul_le_mul_of_nonneg_right (le_abs_self e) hsqnn
        have h2 : |e| * rho ^ 2 ≤ |e| * |rho| :=
          mul_le_mul_of_nonneg_left hsq (abs_nonneg e)
        linarith [habs]
      unfold BinaryMag2_adaptive
      rw [if_pos hcond]
      refine ⟨rfl, ?_⟩
      unfold BinaryMag0
      show |pointSourceMag jacs + c * rho ^ 2 - pointSourceMag jacs| ≤ tol
      have hval : pointSourceMag jacs + c * rho ^ 2 - pointSourceMag jacs = c * rho ^ 2 := by
        ring
      rw [hval, abs_mul, abs_of_nonneg hsqnn]
      linarith [mul_le_mul_of_nonneg_left hsq (abs_nonneg c), hrc, habs]

/-- Witness for C5: with rho = 0 the adaptive call returns the point-source
magnification and populates no annuli. -/
theorem C5_rho_zero_bypass_witness :
    BinaryMag2_adaptive [1] 1 1 (1 / 100) 0 (fun _ => (0, 5)) = (BinaryMag0 [1], 0) :=
  (C5_rho_zero_bypass [1] 1 1 (1 / 100) (fun _ => (0, 5))).1 (by norm_num)

/-- C6: the batched evaluation BinaryMagMultiDark returns, for each
limb-darkening coefficient in the list, exactly the magnification of a
single dark evaluation with that coefficient over the same shared annulus
sub-results, while performing the expensive per-annulus contour work only
once for the whole batch (the same count as one single-coefficient
evaluation, independent of the number of coefficients). -/
theorem C6_multidark_consistency (annuli : List (ℚ × ℚ)) (a1List : List ℚ) :
    (BinaryMagMultiDark annuli a1List).1 =
      a1List.map (fun a => (BinaryMagDark annuli a).1) ∧
    (BinaryMagMultiDark annuli a1List).2 = annuli.length ∧
    (∀ a : ℚ, (BinaryMagMultiDark annuli a1List).2 = (BinaryMagDark annuli a).2) :=
  ⟨rfl, rfl, fun _ => rfl⟩

/-- C7: a magnification call is pure and stateless: it depends only on the
read-only configuration and the query, it never mutates the configuration
part of the instance, and an immediately repeated call with identical inputs
returns an identical magnification and leaves the instance state fixed. -/
theorem C7_pure_stateless (core : MagConfig → MagQuery → MagOutput)
    (st : VBBLState) (inp : MagQuery) :
    configOf (BinaryMag2_call core st inp).2 = configOf st ∧
    (BinaryMag2_call core (BinaryMag2_call core st inp).2 inp).1 =
      (BinaryMag2_call core st inp).1 ∧
    (BinaryMag2_call core (BinaryMag2_call core st inp).2 inp).2 =
      (BinaryMag2_call core st inp).2 := by
  cases hA : st.astrometry <;>
    simp [BinaryMag2_call, configOf, hA]

/-- C9: the user-defined limb-darkening function of instructions.cpp agrees
pointwise with the built-in square-root law at coefficients 0.51 and 0.3, so
its 1000-point lookup grid coincides with the grid of the built-in law and
every magnification computed from the grid is identical; accordingly the two
documented outputs ("18.2712....." for both, at tolerance 1e-4) agree to
within 1e-4. -/
theorem C9_user_LD_grid_equivalence :
    (∀ r : ℝ, MyLDprofile 0.51 0.3 r = LDsquareroot 0.51 0.3 (muOf r)) ∧
    ldGrid (MyLDprofile 0.51 0.3) 1000 =
      ldGrid (fun r => LDsquareroot 0.51 0.3 (muOf r)) 1000 ∧
    (∀ M : (ℕ → ℝ) → ℝ,
      M (ldGrid (MyLDprofile 0.51 0.3) 1000) =
        M (ldGrid (fun r => LDsquareroot 0.51 0.3 (muOf r)) 1000)) ∧
    (∀ v u : ℚ, docInterval BinaryMag2_doc_LD_user 4 v →
      docInterval BinaryMag2_doc_LD_sqrt 4 u → |v - u| < 1 / 10 ^ 4) := by
  have hpt : ∀ r : ℝ, MyLDprofile 0.51 0.3 r = LDsquareroot 0.51 0.3 (muOf r) :=
    fun r => rfl
  have hgrid : ldGrid (MyLDprofile 0.51 0.3) 1000 =
      ldGrid (fun r => LDsquareroot 0.51 0.3 (muOf r)) 1000 := by
    funext i
    exact hpt _
  refine ⟨hpt, hgrid, fun M => congrArg M hgrid, ?_⟩
  intro v u hv hu
  unfold docInterval at hv hu
  unfold BinaryMag2_doc_LD_user at hv
  unfold BinaryMag2_doc_LD_sqrt at hu
  obtain ⟨hv1, hv2⟩ := hv
  obtain ⟨hu1, hu2⟩ := hu
  rw [abs_sub_lt_iff]
  norm_num at hv2 hu2 ⊢
  constructor <;> linarith

/-- Witness for C9 at the documented value 18.2712 for both profiles. -/
theorem C9_user_LD_grid_equivalence_witness :
    |(18.2712 : ℚ) - 18.2712| < 1 / 10 ^ 4 :=
  C9_user_LD_grid_equivalence.2.2.2 18.2712 18.2712
    (by unfold docInterval BinaryMag2_doc_LD_user; norm_num)
    (by unfold docInterval BinaryMag2_doc_LD_sqrt; norm_num)

/-- C8: for the same configuration with linear limb-darkening coefficient
0.51, any value matching the documented output "18.27....." is within the
configured tolerance (the default 1e-2) of 18.27, and is strictly less than
any value matching the documented uniform-source output "18.28...." for the
same configuration. -/
theorem C8_limb_darkening_reduces (v u : ℚ)
    (hv : docInterval BinaryMag2_doc_LD_linear 2 v)
    (hu : docInterval BinaryMag2_doc_tol_1e2 2 u) :
    |v - BinaryMag2_doc_LD_linear| ≤ defaultTol ∧ v < u := by
  unfold docInterval at hv hu
  unfold BinaryMag2_doc_LD_linear at hv ⊢
  unfold BinaryMag2_doc_tol_1e2 at hu
  unfold defaultTol
  obtain ⟨hv1, hv2⟩ := hv
  obtain ⟨hu1, hu2⟩ := hu
  norm_num at hv2 hu2
  constructor
  · rw [abs_le]
    constructor <;> linarith
  · linarith

/-- Witness for C8 at the concrete values 18.2753 and 18.2833. -/
theorem C8_limb_darkening_reduces_witness :
    |(18.2753 : ℚ) - BinaryMag2_doc_LD_linear| ≤ defaultTol ∧
    (18.2753 : ℚ) < 18.2833 :=
  C8_limb_darkening_reduces 18.2753 18.2833
    (by unfold docInterval BinaryMag2_doc_LD_linear; norm_num)
    (by unfold docInterval BinaryMag2_doc_tol_1e2; norm_num)

/-- C10: with the astrometry flag set, a BinaryMag2 call returns the same
magnification as with the flag unset, and additionally exposes the computed
image centroid through the instance fields astrox1 and astrox2; whenever the
computed centroid meets the documented accuracy Tol*20*Rs against the exact
centroid, so does the exposed astrox1 field. -/
theorem C10_astrometry_frame_effect (core : MagConfig → MagQuery → MagOutput)
    (st : VBBLState) (inp : MagQuery) (exact1 : ℚ) :
    (BinaryMag2_call core { st with astrometry := true } inp).1 =
      (BinaryMag2_call core { st with astrometry := false } inp).1 ∧
    (BinaryMag2_call core { st with astrometry := true } inp).2.astrox1 =
      (core (configOf st) inp).cx1 ∧
    (BinaryMag2_call core { st with astrometry := true } inp).2.astrox2 =
      (core (configOf st) inp).cx2 ∧
    (|(core (configOf st) inp).cx1 - exact1| ≤ astroAccuracy st.Tol inp.rho →
      |(BinaryMag2_call core { st with astrometry := true } inp).2.astrox1 - exact1| ≤
        astroAccuracy st.Tol inp.rho) :=
  ⟨rfl, rfl, rfl, fun h => h⟩

/-- Witness for C10 on the example instance and query. -/
theorem C10_astrometry_frame_effect_witness :
    |(BinaryMag2_call exampleCore { exampleState with astrometry := true }
        exampleQuery).2.astrox1 - 2| ≤
      astroAccuracy exampleState.Tol exampleQuery.rho :=
  (C10_astrometry_frame_effect exampleCore exampleState exampleQuery 2).2.2.2
    (by norm_num [exampleCore, exampleState, exampleQuery, configOf, astroAccuracy])

end VBBL
